import Mathlib

/-!
Verification of the buoy NOAA client (src/buoy/client.py) against its
natural-language specification.  The Python code is shallowly embedded:
pure helpers become Lean functions, the filesystem and network effects of
`NOAAClient` become explicit state passing over a file-store value and a
network oracle, and Python exceptions become `Except` errors.
-/

set_option maxRecDepth 100000

namespace Buoy

/-! ## SHA-1 (hashlib.sha1(...).hexdigest())

The client computes its cache key as `hashlib.sha1(f"{url}.{params}".encode()).hexdigest()`
(client.py line 68).  SHA-1 is implemented here over `Nat` with explicit
`% 2 ^ 32` reductions. -/

/-- The word modulus of SHA-1 arithmetic, 2^32. -/
def w32 : Nat := 4294967296

/-- Left rotation of a 32-bit word (input assumed < 2^32). -/
def rotl (n x : Nat) : Nat := (x * 2 ^ n) % w32 + x / 2 ^ (32 - n)

/-- The SHA-1 round function, selected by round index `t`. -/
def sha1f (t b c d : Nat) : Nat :=
  if t < 20 then (b &&& c) ||| ((b ^^^ (w32 - 1)) &&& d)
  else if t < 40 then b ^^^ c ^^^ d
  else if t < 60 then (b &&& c) ||| (b &&& d) ||| (c &&& d)
  else b ^^^ c ^^^ d

/-- The SHA-1 round constant, selected by round index `t`. -/
def sha1k (t : Nat) : Nat :=
  if t < 20 then 0x5A827999
  else if t < 40 then 0x6ED9EBA1
  else if t < 60 then 0x8F1BBCDC
  else 0xCA62C1D6

/-- SHA-1 message padding: append 0x80, zero bytes up to 56 mod 64, then the
64-bit big-endian bit length. -/
def sha1Pad (msg : List Nat) : List Nat :=
  let ml := msg.length
  let zeros := (119 - ml % 64) % 64
  let bits := 8 * ml
  msg ++ [128] ++ List.replicate zeros 0 ++
    (List.range 8).map (fun i => bits / 2 ^ (8 * (7 - i)) % 256)

/-- Group bytes into big-endian 32-bit words. -/
def bytesToWords : List Nat → List Nat
  | b0 :: b1 :: b2 :: b3 :: rest =>
      (((b0 * 256 + b1) * 256 + b2) * 256 + b3) :: bytesToWords rest
  | _ => []

/-- Group words into 16-word blocks. -/
def wordsToBlocks : List Nat → List (List Nat)
  | w0 :: w1 :: w2 :: w3 :: w4 :: w5 :: w6 :: w7 ::
    w8 :: w9 :: w10 :: w11 :: w12 :: w13 :: w14 :: w15 :: rest =>
      [w0, w1, w2, w3, w4, w5, w6, w7, w8, w9, w10, w11, w12, w13, w14, w15] ::
        wordsToBlocks rest
  | _ => []

/-- Extend the (reversed) message schedule by `n` further words. -/
def sha1Extend (rws : List Nat) : Nat → List Nat
  | 0 => rws
  | n + 1 =>
      sha1Extend
        (rotl 1 (rws.getD 2 0 ^^^ rws.getD 7 0 ^^^ rws.getD 13 0 ^^^ rws.getD 15 0) :: rws) n

/-- The 80-word message schedule of a 16-word block. -/
def sha1Sched (blk : List Nat) : List Nat :=
  (sha1Extend blk.reverse 64).reverse

/-- Run the 80 SHA-1 rounds over a schedule. -/
def sha1Rounds (ws : List Nat) (st : Nat × Nat × Nat × Nat × Nat) :
    Nat × Nat × Nat × Nat × Nat :=
  (ws.foldl
    (fun p wt =>
      match p with
      | (t, a, b, c, d, e) =>
          (t + 1, (rotl 5 a + sha1f t b c d + e + sha1k t + wt) % w32, a, rotl 30 b, c, d))
    (0, st)).2

/-- Compress one block into the running hash state. -/
def sha1Block (h : Nat × Nat × Nat × Nat × Nat) (blk : List Nat) :
    Nat × Nat × Nat × Nat × Nat :=
  match h, sha1Rounds (sha1Sched blk) h with
  | (h0, h1, h2, h3, h4), (a, b, c, d, e) =>
      ((h0 + a) % w32, (h1 + b) % w32, (h2 + c) % w32, (h3 + d) % w32, (h4 + e) % w32)

/-- One lowercase hexadecimal digit. -/
def hexChar (n : Nat) : Char :=
  if n < 10 then Char.ofNat (48 + n) else Char.ofNat (87 + n)

/-- Eight lowercase hex digits of a 32-bit word, most significant first. -/
def hex8 (x : Nat) : List Char :=
  (List.range 8).map (fun i => hexChar (x / 2 ^ (4 * (7 - i)) % 16))

/-- Embedding of `hashlib.sha1(bytes).hexdigest()`. -/
def sha1Hex (msg : List Nat) : String :=
  match (wordsToBlocks (bytesToWords (sha1Pad msg))).foldl sha1Block
      (0x67452301, 0xEFCDAB89, 0x98BADCFE, 0x10325476, 0xC3D2E1F0) with
  | (h0, h1, h2, h3, h4) =>
      String.mk (hex8 h0 ++ hex8 h1 ++ hex8 h2 ++ hex8 h3 ++ hex8 h4)

/-- Python `str.encode()` produces UTF-8 bytes; every string this client hashes
is ASCII, where UTF-8 is the identity on code points. -/
def strBytes (s : String) : List Nat := s.data.map Char.toNat

/-- Sanity check of the SHA-1 embedding against the well-known digest of "abc". -/
theorem sha1Hex_abc :
    sha1Hex (strBytes ("abc")) = "a9993e364706816aba3e25717850c26c9cd0d89d" := by
  decide

/-! ## Python values and the f-string rendering of query parameters

`NOAAClient._get` (client.py line 68) builds the cache key from the f-string
`f"{url}.{params}"`, where `params` is a Python dict.  Python renders a dict
in insertion order, for example rendering the station id dict as quoted key, colon, value.  A dict is embedded as an
association list in insertion order. -/

/-- A Python parameter value: the client passes ints or strings. -/
inductive PyVal where
  | pyInt (n : Int)
  | pyStr (s : String)
deriving DecidableEq, Repr

/-- Python `repr` of a parameter value (`46086`, or `\x27text\x27`). -/
def PyVal.pyRepr : PyVal → String
  | pyInt n => toString n
  | pyStr s => "\x27" ++ s ++ "\x27"

/-- Query parameters: a Python dict in insertion order. -/
def Params : Type := List (String × PyVal)

instance : DecidableEq Params := by
  unfold Params
  infer_instance

/-- Python `str` of a dict: `\x7b\x27k\x27: v, ...\x7d`, in insertion order. -/
def pyDictRepr (params : Params) : String :=
  "\x7b" ++
    String.intercalate ", "
      (params.map (fun p => "\x27" ++ p.1 ++ "\x27: " ++ p.2.pyRepr)) ++
    "\x7d"

/-- The string hashed by `_get` (client.py line 68): `f"{url}.{params}"`. -/
def cacheKeyString (url : String) (params : Params) : String :=
  url ++ "." ++ pyDictRepr params

/-- The cache key: `hashlib.sha1(f"{url}.{params}".encode()).hexdigest()`. -/
def cacheKey (url : String) (params : Params) : String :=
  sha1Hex (strBytes (cacheKeyString url params))

/-- The cache file path: `posixpath.join(".", "cache", f"{cache_key}.html")`
(client.py line 69). -/
def cacheFilePath (url : String) (params : Params) : String :=
  "./cache/" ++ (cacheKey url params ++ ".html")

/-! ## Python exceptions, the filesystem, and the network -/

/-- The Python exceptions the embedded code can raise. -/
inductive PyErr where
  /-- `ValueError`, raised by `datetime.datetime.strptime` on a format mismatch. -/
  | valueError
  /-- `AttributeError`, raised by calling a method on `None`. -/
  | attributeError
  /-- `TypeError`, raised by `bs4.BeautifulSoup(None)`. -/
  | typeError
  /-- `FileNotFoundError`, raised by `open(path, "w")` when the directory is missing. -/
  | fileNotFound
  /-- An `aiohttp` transport exception: connection failure or timeout. -/
  | connectionError
deriving DecidableEq, Repr

/-- The local filesystem as the client sees it: file contents by path, plus
whether the `./cache` directory exists (its absence makes every cache write
raise `FileNotFoundError`; the code never creates it). -/
structure FS where
  files : List (String × String)
  cacheDirExists : Bool
deriving DecidableEq, Repr

/-- Read a file: `None` models `FileNotFoundError` (the only error the cache
read path can see that client.py line 74 catches). -/
def FS.read (fs : FS) (path : String) : Option String :=
  (fs.files.find? (fun p => p.1 = path)).map (fun p => p.2)

/-- Write (or overwrite) a file. -/
def FS.write (fs : FS) (path body : String) : FS :=
  { fs with files := (path, body) :: fs.files }

/-- The outcome of one `aiohttp` GET. -/
inductive NetResult where
  /-- The request raised (connection failure / timeout). -/
  | connError
  /-- A response with an HTTP status and a body text. -/
  | response (status : Nat) (body : String)
deriving DecidableEq, Repr

/-- The network oracle: what `self.session.get(url, params=params)` yields.
A function, hence deterministic within one run. -/
def Net : Type := String → Params → NetResult

/-- The value returned by a successful `_get`, together with its effects. -/
structure GetResult where
  /-- The returned body: `None` when the response status was not 200. -/
  body : Option String
  /-- The filesystem afterwards. -/
  fs : FS
  /-- How many network requests were issued (0 on a cache hit, else 1). -/
  netCalls : Nat
deriving DecidableEq, Repr

/-- Embedding of `NOAAClient._get` (client.py lines 66-84): consult the file cache (only
`FileNotFoundError` is caught, so a missing cache file falls through to the
network); on a miss issue the GET; a transport exception propagates; a 200
response is written to the cache (an unwritable `./cache` directory makes
`aiofiles.open(cache_file, "w")` raise, uncaught) and returned; any other
status returns `None`. -/
def NOAAClient_get (fs : FS) (net : Net) (url : String) (params : Params) :
    Except PyErr GetResult :=
  let path := cacheFilePath url params
  match fs.read path with
  | some cached => Except.ok ⟨some cached, fs, 0⟩
  | none =>
      match net url params with
      | NetResult.connError => Except.error PyErr.connectionError
      | NetResult.response status body =>
          if status = 200 then
            if fs.cacheDirExists then Except.ok ⟨some body, fs.write path body, 1⟩
            else Except.error PyErr.fileNotFound
          else Except.ok ⟨none, fs, 1⟩

/-- The base URL of the client (client.py line 49). -/
def baseUrl : String := "https://www.ndbc.noaa.gov"

/-- The station page URL, `self._url(["station_page.php"])`: posixpath.join of base and path. -/
def stationPageUrl : String := baseUrl ++ "/station_page.php"

/-- The index URL, `self._url(["to_station.shtml"])`. -/
def toStationUrl : String := baseUrl ++ "/to_station.shtml"

/-- The params dict `{"station": station_id}` (client.py lines 96 and 125). -/
def stationParams (sid : Nat) : Params :=
  [("station", PyVal.pyInt (Int.ofNat sid))]

/-! ## The parsed HTML page

BeautifulSoup is modelled by its observable result: the pieces of a parsed
page that client.py inspects.  `soup.findAll("a", href=True)` is the anchor
list; `soup.find("caption", \x7b"class": "titleDataHeader"\x7d)` searches the
caption list; `caption.parent` rows are carried with each caption;
`soup.find("div", \x7b"id": "stn_metadata"\x7d).get_text()` is the optional
metadata text. -/

/-- An anchor element with an `href` attribute. -/
structure Anchor where
  href : String
  /-- `a.parent.get_text()`, used for the station name. -/
  parentText : String
deriving DecidableEq, Repr

/-- A `caption` element together with its parent table. -/
structure HtmlCaption where
  /-- The CSS classes of the caption. -/
  classes : List String
  /-- `caption.getText()`. -/
  text : String
  /-- The `tr` rows of the parent table, each as the list of its `td` cell texts. -/
  tableRows : List (List String)
deriving DecidableEq, Repr

/-- A parsed page: everything client.py reads out of a soup. -/
structure HtmlPage where
  anchors : List Anchor
  captions : List HtmlCaption
  /-- `get_text()` of the `div` with id `stn_metadata`, when that div exists. -/
  stnMetadata : Option String
deriving DecidableEq, Repr

/-- Embedding of `bs4.BeautifulSoup`: an opaque parse from page text to page structure. -/
def Parse : Type := String → HtmlPage

/-! ## Regular-expression and strptime embeddings

Each `re.search` call in client.py is embedded as a dedicated leftmost-match
scanner over the character list, faithful to the concrete pattern. -/

/-- Test for `\d` on ASCII input. -/
def digitCh (c : Char) : Bool := c.isDigit

/-- Numeric value of a decimal digit character. -/
def digitVal (c : Char) : Nat := c.toNat - 48

/-- Match a literal string, returning the remaining characters. -/
def expectChars : List Char → List Char → Option (List Char)
  | [], cs => some cs
  | _ :: _, [] => none
  | p :: ps, c :: cs => if p = c then expectChars ps cs else none

/-- Accumulator pass for `pySplit`: `acc` holds the current token reversed. -/
def pySplitAux : List Char → List Char → List String
  | acc, [] => if acc.isEmpty then [] else [String.mk acc.reverse]
  | acc, c :: rest =>
      if c.isWhitespace then
        if acc.isEmpty then pySplitAux [] rest
        else String.mk acc.reverse :: pySplitAux [] rest
      else pySplitAux (c :: acc) rest

/-- Python `str.split()`: split on whitespace runs, dropping empty tokens
(ASCII whitespace; the unicode extras never occur in these pages). -/
def pySplit (s : String) : List String := pySplitAux [] s.data

/-- Boolean prefix test on character lists (kernel-reducible replacement for
`String.isPrefixOf`). -/
def chPrefix : List Char → List Char → Bool
  | [], _ => true
  | _ :: _, [] => false
  | p :: ps, c :: cs => p = c && chPrefix ps cs

/-- Embedding of `re.search(r"^<pat>", key)` as a boolean: an anchored match at the start. -/
def startsWith (pat s : String) : Bool := chPrefix pat.data s.data

/-- Strip one trailing newline, as the `$` anchor also matches just before a
final newline. -/
def stripFinalNl (cs : List Char) : List Char :=
  match cs.getLast? with
  | some c => if c = '\n' then cs.dropLast else cs
  | none => cs

/-- Leftmost match of `\d{4} GMT .+` against a suffix known to end just before
the final `:` — the scanning core of `re.search(r"(\d\x7b4\x7d GMT .+):$", text)`
(client.py line 134).  Greedy `.+` cannot span a newline, and must be
nonempty. -/
def tsSearchAux : List Char → Option (List Char)
  | d1 :: d2 :: d3 :: d4 :: ' ' :: 'G' :: 'M' :: 'T' :: ' ' :: tail =>
      if digitCh d1 && digitCh d2 && digitCh d3 && digitCh d4 &&
          !tail.isEmpty && !tail.contains '\n' then
        some (d1 :: d2 :: d3 :: d4 :: ' ' :: 'G' :: 'M' :: 'T' :: ' ' :: tail)
      else tsSearchAux (d2 :: d3 :: d4 :: ' ' :: 'G' :: 'M' :: 'T' :: ' ' :: tail)
  | _ :: rest => tsSearchAux rest
  | [] => none

/-- Embedding of `re.search(r"(\d\x7b4\x7d GMT .+):$", text)` returning group 1: the text must
end in `:` (possibly before one final newline) and contain `dddd GMT ` followed
by at least one character before that colon. -/
def captionTsSearch (s : String) : Option String :=
  let cs := stripFinalNl s.data
  match cs.getLast? with
  | some ':' => (tsSearchAux cs.dropLast).map (fun g => String.mk g)
  | _ => none

/-- Token `%H` of CPython strptime: `(2[0-3]|[0-1]\d|\d)`, alternatives tried in
order. -/
def parseHour : List Char → Option (Nat × List Char)
  | c1 :: c2 :: rest =>
      if c1 = '2' && digitCh c2 && c2 ≤ '3' then some (20 + digitVal c2, rest)
      else if (c1 = '0' || c1 = '1') && digitCh c2 then
        some (10 * digitVal c1 + digitVal c2, rest)
      else if digitCh c1 then some (digitVal c1, c2 :: rest)
      else none
  | [c1] => if digitCh c1 then some (digitVal c1, []) else none
  | [] => none

/-- Token `%M` of CPython strptime: `([0-5]\d|\d)`. -/
def parseMinute : List Char → Option (Nat × List Char)
  | c1 :: c2 :: rest =>
      if digitCh c1 && c1 ≤ '5' && digitCh c2 then
        some (10 * digitVal c1 + digitVal c2, rest)
      else if digitCh c1 then some (digitVal c1, c2 :: rest)
      else none
  | [c1] => if digitCh c1 then some (digitVal c1, []) else none
  | [] => none

/-- Token `%Z` of CPython strptime: an alternation of timezone names.  `GMT` and
`UTC` are always accepted; the locale-dependent local names are not modelled
(the caption regex guarantees the text here is `GMT`). -/
def parseTzName (cs : List Char) : Option (List Char) :=
  match expectChars ([ 'G', 'M', 'T' ]) cs with
  | some rest => some rest
  | none => expectChars ([ 'U', 'T', 'C' ]) cs

/-- Token `%m` of CPython strptime: `(1[0-2]|0[1-9]|[1-9])`. -/
def parseMonth : List Char → Option (Nat × List Char)
  | c1 :: c2 :: rest =>
      if c1 = '1' && digitCh c2 && c2 ≤ '2' then some (10 + digitVal c2, rest)
      else if c1 = '0' && digitCh c2 && '1' ≤ c2 then some (digitVal c2, rest)
      else if digitCh c1 && '1' ≤ c1 then some (digitVal c1, c2 :: rest)
      else none
  | [c1] => if digitCh c1 && '1' ≤ c1 then some (digitVal c1, []) else none
  | [] => none

/-- Token `%d` of CPython strptime: `(3[01]|[12]\d|0[1-9]|[1-9])`. -/
def parseDay : List Char → Option (Nat × List Char)
  | c1 :: c2 :: rest =>
      if c1 = '3' && (c2 = '0' || c2 = '1') then some (30 + digitVal c2, rest)
      else if (c1 = '1' || c1 = '2') && digitCh c2 then
        some (10 * digitVal c1 + digitVal c2, rest)
      else if c1 = '0' && digitCh c2 && '1' ≤ c2 then some (digitVal c2, rest)
      else if digitCh c1 && '1' ≤ c1 then some (digitVal c1, c2 :: rest)
      else none
  | [c1] => if digitCh c1 && '1' ≤ c1 then some (digitVal c1, []) else none
  | [] => none

/-- Token `%Y` of CPython strptime: exactly four digits. -/
def parseYear : List Char → Option (Nat × List Char)
  | c1 :: c2 :: c3 :: c4 :: rest =>
      if digitCh c1 && digitCh c2 && digitCh c3 && digitCh c4 then
        some (((digitVal c1 * 10 + digitVal c2) * 10 + digitVal c3) * 10 + digitVal c4,
          rest)
      else none
  | _ => none

/-- Whether a year is a Gregorian leap year. -/
def isLeap (y : Nat) : Bool := y % 4 = 0 && (y % 100 ≠ 0 || y % 400 = 0)

/-- Days in a month, as `datetime.datetime` validates them. -/
def daysInMonth (y m : Nat) : Nat :=
  if m = 2 then (if isLeap y then 29 else 28)
  else if m = 4 || m = 6 || m = 9 || m = 11 then 30
  else 31

/-- A naive `datetime.datetime` as constructed by this strptime call
(seconds and timezone are not populated by the format). -/
structure DateTime where
  year : Nat
  month : Nat
  day : Nat
  hour : Nat
  minute : Nat
deriving DecidableEq, Repr

/-- Embedding of `datetime.datetime.strptime(s, "%H%M %Z on %m/%d/%Y")` (client.py line
138): the whole string must be consumed, and the date must be constructible
(`datetime` rejects day-out-of-range and year 0).  `None` models the
`ValueError` raise. -/
def strptimeReport (s : String) : Option DateTime :=
  match parseHour s.data with
  | none => none
  | some (h, r1) =>
      match parseMinute r1 with
      | none => none
      | some (mi, r2) =>
          match expectChars ([ ' ' ]) r2 with
          | none => none
          | some r3 =>
              match parseTzName r3 with
              | none => none
              | some r4 =>
                  match expectChars ([ ' ', 'o', 'n', ' ' ]) r4 with
                  | none => none
                  | some r5 =>
                      match parseMonth r5 with
                      | none => none
                      | some (mo, r6) =>
                          match expectChars ([ '/' ]) r6 with
                          | none => none
                          | some r7 =>
                              match parseDay r7 with
                              | none => none
                              | some (d, r8) =>
                                  match expectChars ([ '/' ]) r8 with
                                  | none => none
                                  | some r9 =>
                                      match parseYear r9 with
                                      | none => none
                                      | some (y, r10) =>
                                          if r10 = [] && 1 ≤ y &&
                                              d ≤ daysInMonth y mo then
                                            some ⟨y, mo, d, h, mi⟩
                                          else none

/-- Leftmost match of `re.search(r"(\d+ deg)", s)` (client.py line 157):
the first maximal digit run followed by `" deg"`, returned with the suffix. -/
def degSearchAux : List Char → Option (List Char)
  | [] => none
  | c :: rest =>
      if digitCh c then
        let run := (c :: rest).takeWhile digitCh
        let after := (c :: rest).dropWhile digitCh
        match expectChars ([ ' ', 'd', 'e', 'g' ]) after with
        | some _ => some (run ++ [ ' ', 'd', 'e', 'g' ])
        | none => degSearchAux rest
      else degSearchAux rest

/-- Embedding of `re.search(r"(\d+ deg)", s)` returning group 1. -/
def degSearch (s : String) : Option String :=
  (degSearchAux s.data).map (fun g => String.mk g)

/-- One attempt of `[\d\.]+ [NS] [\d\.]+ [EW]` at the current position,
returning the two groups (client.py lines 107-109). -/
def coordChar (c : Char) : Bool := digitCh c || c = '.'

/-- Try the coordinate pattern at this position. -/
def latLongAt (cs : List Char) : Option (String × String) :=
  let run1 := cs.takeWhile coordChar
  let rest1 := cs.dropWhile coordChar
  if run1.isEmpty then none
  else
    match rest1 with
    | ' ' :: h1 :: ' ' :: rest2 =>
        if h1 = 'N' || h1 = 'S' then
          let run2 := rest2.takeWhile coordChar
          let rest3 := rest2.dropWhile coordChar
          if run2.isEmpty then none
          else
            match rest3 with
            | ' ' :: h2 :: _ =>
                if h2 = 'E' || h2 = 'W' then
                  some (String.mk (run1 ++ [ ' ', h1 ]), String.mk (run2 ++ [ ' ', h2 ]))
                else none
            | _ => none
        else none
    | _ => none

/-- Leftmost-match scan for the coordinate pattern. -/
def latLongSearchAux : List Char → Option (String × String)
  | [] => none
  | c :: rest =>
      match latLongAt (c :: rest) with
      | some g => some g
      | none => latLongSearchAux rest

/-- Embedding of `re.search(r"([\d\.]+ [NS]) ([\d\.]+ [EW])", station_data)` returning the
two groups. -/
def latLongSearch (s : String) : Option (String × String) :=
  latLongSearchAux s.data

/-! ## The record types -/

/-- The `Station` dataclass (client.py lines 28-34).  The code stores the
regex groups — strings such as `"32.868 N"` — in the latitude/longitude
fields despite their `float` annotations, so they are strings here. -/
structure Station where
  id : Nat
  name : String
  rss : String
  latitude : String
  longitude : String
deriving DecidableEq, Repr

/-- The `StationReport` dataclass (client.py lines 37-44).  The code assigns
`cells[2].getText().split()` — a list of strings — to each measurement field
despite the `float` annotations, so the fields are string lists here. -/
structure StationReport where
  timestamp : DateTime
  wave_height : Option (List String) := none
  wave_dominant_period : Option (List String) := none
  wave_average_period : Option (List String) := none
  wave_mean_degrees : Option (List String) := none
  water_temperature : Option (List String) := none
deriving DecidableEq, Repr

/-! ## The report extractor (client.py lines 129-173) -/

/-- Embedding of `soup.find("caption", \x7b"class": "titleDataHeader"\x7d)`: the first
caption whose class list contains the marker. -/
def findMarkerCaption (page : HtmlPage) : Option HtmlCaption :=
  page.captions.find? (fun c => c.classes.contains ("titleDataHeader"))

/-- One iteration of the row loop (client.py lines 142-161): rows with fewer
than three cells are skipped; the second cell is the label, matched by
`re.search(r"^<label>", key)` — an anchored prefix match — against the five
known labels; the third cell is the value, tokenized by `split()`.  For
`Mean Wave Direction` the value is first re-extracted by `(\d+ deg)`. -/
def reportRow (report : StationReport) (cells : List String) : StationReport :=
  if cells.length < 3 then report
  else
    let key := cells.getD 1 ("")
    let valueText := cells.getD 2 ("")
    let value := pySplit valueText
    if startsWith ("Wave Height") key then
      { report with wave_height := some value }
    else if startsWith ("Dominant Wave Period") key then
      { report with wave_dominant_period := some value }
    else if startsWith ("Average Period") key then
      { report with wave_average_period := some value }
    else if startsWith ("Mean Wave Direction") key then
      match degSearch valueText with
      | some g => { report with wave_mean_degrees := some (pySplit g) }
      | none => report
    else if startsWith ("Water Temperature") key then
      { report with water_temperature := some value }
    else report

/-- The pure part of `NOAAClient.station_report` on an already-parsed page
(client.py lines 129-161): no caption, or a caption whose text fails the
liberal regex, yields `None`; a regex match whose group fails the strict
strptime raises `ValueError`; otherwise the table rows populate an
initially-all-absent report. -/
def stationReportExtract (page : HtmlPage) : Except PyErr (Option StationReport) :=
  match findMarkerCaption page with
  | none => Except.ok none
  | some caption =>
      match captionTsSearch caption.text with
      | none => Except.ok none
      | some g =>
          match strptimeReport g with
          | none => Except.error PyErr.valueError
          | some ts =>
              Except.ok (some (caption.tableRows.foldl reportRow { timestamp := ts }))

/-- The path of the report pickle (client.py lines 164-165).  The source names
the file after `timestamp.timestamp()` (a float); the exact rendering is
irrelevant to every modelled read, and only the `reports/` prefix matters: a
field-wise rendering stands in for the epoch float. -/
def reportPicklePath (sid : Nat) (ts : DateTime) : String :=
  "reports/" ++ (toString sid ++ "/" ++ toString ts.year ++ "-" ++
    toString ts.month ++ "-" ++ toString ts.day ++ "-" ++ toString ts.hour ++
    "-" ++ toString ts.minute ++ ".pickle")

/-- Embedding of `NOAAClient.station_report` (client.py lines 123-173): fetch the station
page via `_get`, return `None` on no body, extract, and on success pickle the
report under `reports/` (`os.makedirs` is wrapped for `FileExistsError`, and
the pickle write itself is modelled as succeeding; its content is opaque). -/
def station_report (parse : Parse) (fs : FS) (net : Net) (sid : Nat) :
    Except PyErr (Option StationReport × FS) :=
  match NOAAClient_get fs net stationPageUrl (stationParams sid) with
  | Except.error e => Except.error e
  | Except.ok r =>
      match r.body with
      | none => Except.ok (none, r.fs)
      | some html =>
          match stationReportExtract (parse html) with
          | Except.error e => Except.error e
          | Except.ok none => Except.ok (none, r.fs)
          | Except.ok (some rep) =>
              Except.ok (some rep,
                r.fs.write (reportPicklePath sid rep.timestamp) ("pickle"))

/-! ## The station extractor (client.py lines 97-121) -/

/-- The href the anchor loop looks for: `f"/data/latest_obs/\x7bstation_id\x7d.rss"`. -/
def rssHref (sid : Nat) : String :=
  "/data/latest_obs/" ++ toString sid ++ ".rss"

/-- The pure part of `NOAAClient.station` on an already-parsed page (client.py
lines 98-117): the loop visits every anchor; on each anchor whose href equals
the rss target it reads `soup.find("div", ...).get_text()` — an
`AttributeError` when the metadata div is absent, since `find` returned
`None` — and applies the coordinate regex, keeping the accumulated result
when the regex fails.  The per-match pickle write has no modelled reader and
is omitted from the state. -/
def stationScanGo (page : HtmlPage) (sid : Nat) (st : Option Station) :
    List Anchor → Except PyErr (Option Station)
  | [] => Except.ok st
  | a :: rest =>
      if a.href = rssHref sid then
        match page.stnMetadata with
        | none => Except.error PyErr.attributeError
        | some md =>
            match latLongSearch md with
            | some g =>
                stationScanGo page sid
                  (some
                    { id := sid, name := a.parentText,
                      rss := baseUrl ++ "/data/latest_obs/" ++ toString sid ++ ".rss",
                      latitude := g.1, longitude := g.2 })
                  rest
            | none => stationScanGo page sid st rest
      else stationScanGo page sid st rest

/-- The anchor loop of `NOAAClient.station`, started on the anchors of the page
with no station found yet. -/
def stationScan (page : HtmlPage) (sid : Nat) : Except PyErr (Option Station) :=
  stationScanGo page sid none page.anchors

/-! ## The catalog resolver (client.py lines 175-190) -/

/-- Embedding of `re.search(r"station_page.php\?station=(\d+)$", href)`
(client.py line 182), tried at one position: literal `station_page`, one
arbitrary non-newline character (the unescaped dot of the pattern), literal
`php`, a literal question mark (escaped in the pattern), literal `station=`,
then at least one digit running to the end of the string.  Returns
`int(group(1))`. -/
def stationHrefAt (cs : List Char) : Option Nat :=
  match expectChars
      ([ 's', 't', 'a', 't', 'i', 'o', 'n', '_', 'p', 'a', 'g', 'e' ]) cs with
  | none => none
  | some r1 =>
      match r1 with
      | [] => none
      | dot :: r2 =>
          if dot = '\n' then none
          else
            match expectChars
                ([ 'p', 'h', 'p', '?', 's', 't', 'a', 't', 'i', 'o', 'n', '=' ])
                r2 with
            | none => none
            | some r3 =>
                if !r3.isEmpty && r3.all digitCh then
                  some (r3.foldl (fun n c => 10 * n + digitVal c) 0)
                else none

/-- Leftmost-match scan of the station href pattern over the whole href
(`$` also matches before one final newline, handled by the caller). -/
def stationHrefSearchAux : List Char → Option Nat
  | [] => none
  | c :: rest =>
      match stationHrefAt (c :: rest) with
      | some n => some n
      | none => stationHrefSearchAux rest

/-- The full href match: `int(m.group(1))` of the leftmost match, if any. -/
def stationHrefMatch (href : String) : Option Nat :=
  stationHrefSearchAux (stripFinalNl href.data)

/-- The anchor loop of `station_list` (client.py lines 180-190): matching
hrefs are appended, in page order, to a plain list — no deduplication.  The
`except ValueError` around `int` is dead code: `group(1)` is all digits and
Python ints are unbounded. -/
def stationListScan (page : HtmlPage) : List Nat :=
  page.anchors.filterMap (fun a => stationHrefMatch a.href)

/-- Embedding of `NOAAClient.station_list` (client.py lines 175-190): `_get` the index page
with the default empty params; the body is passed to BeautifulSoup with no
`None` check, and `bs4.BeautifulSoup(None)` raises `TypeError`. -/
def station_list (parse : Parse) (fs : FS) (net : Net) :
    Except PyErr (List Nat × FS) :=
  match NOAAClient_get fs net toStationUrl [] with
  | Except.error e => Except.error e
  | Except.ok r =>
      match r.body with
      | none => Except.error PyErr.typeError
      | some html => Except.ok (stationListScan (parse html), r.fs)

/-! ## The orchestrator (client.py lines 200-211) -/

/-- The gather-and-zip of `run` (client.py lines 203-207) over a given
station list: one `station_report` per station, collected into
`\x7bstation_id: report\x7d`.  `asyncio.gather` without `return_exceptions`
re-raises the first exception of any task and yields no result dict; the
per-station tasks share only the filesystem, whose accesses are modelled in
station order as one linearization of the concurrent run. -/
def runGather (parse : Parse) (fs : FS) (net : Net) :
    List Nat → Except PyErr (List (Nat × Option StationReport) × FS)
  | [] => Except.ok ([], fs)
  | sid :: rest =>
      match station_report parse fs net sid with
      | Except.error e => Except.error e
      | Except.ok (rep, fs') =>
          match runGather parse fs' net rest with
          | Except.error e => Except.error e
          | Except.ok (l, fsb) => Except.ok ((sid, rep) :: l, fsb)

/-! ## Sanity checks of the embeddings against observed CPython behavior -/

example : stationHrefMatch ("station_page.php?station=46086") = some 46086 := by
  decide

example : stationHrefMatch ("station_page.phpstation=46086") = none := by decide

example : stationHrefMatch ("station_pageXphp?station=123") = some 123 := by
  decide

example : stationHrefMatch ("/link/station_page.php?station=46086") = some 46086 := by
  decide

example : stationHrefMatch ("station_page.php?station=46086x") = none := by decide

example : stationHrefMatch ("station_page.php?station=") = none := by decide

example :
    captionTsSearch ("1015 GMT whenever on a boat:") =
      some ("1015 GMT whenever on a boat") := by decide

example : captionTsSearch ("whenever on a boat") = none := by decide

example :
    strptimeReport ("1015 GMT on 10/01/2020") = some ⟨2020, 10, 1, 10, 15⟩ := by
  decide

example : strptimeReport ("1015 GMT whenever on a boat") = none := by decide

example : strptimeReport ("915 GMT on 1/1/2020") = some ⟨2020, 1, 1, 9, 15⟩ := by
  decide

example : strptimeReport ("0230 GMT on 02/30/2020") = none := by decide

example : strptimeReport ("0000 GMT on 02/29/2020") = some ⟨2020, 2, 29, 0, 0⟩ := by
  decide

example : strptimeReport ("0000 GMT on 02/29/2019") = none := by decide

example : degSearch ("(from the NNE) some text 38 deg") = some ("38 deg") := by
  decide

example : pySplit ("4.2 ft") = [ "4.2", "ft" ] := by decide

example :
    latLongSearch ("x 32.868 N 117.267 W y") =
      some ("32.868 N", "117.267 W") := by decide

example :
    cacheKeyString ("u") ([ ("a", PyVal.pyInt 1), ("b", PyVal.pyInt 2) ]) =
      "u.\x7b\x27a\x27: 1, \x27b\x27: 2\x7d" := by decide

example :
    cacheKey ("u") ([ ("a", PyVal.pyInt 1), ("b", PyVal.pyInt 2) ]) =
      "653bdf89cf6d7ee25a6dcd9c3506637b6a89e898" := by decide

example :
    cacheKey ("u") ([ ("b", PyVal.pyInt 2), ("a", PyVal.pyInt 1) ]) =
      "6d516571d94eebfff45b44e5ec30610de74f1208" := by decide

/-- Decidable equality for `Except`, for evaluating embedded operations on
concrete inputs. -/
def exceptDecEq {ε α : Type} [DecidableEq ε] [DecidableEq α] :
    (x y : Except ε α) → Decidable (x = y)
  | Except.error a, Except.error b =>
      if h : a = b then Decidable.isTrue (by rw [h])
      else Decidable.isFalse (by intro hc; cases hc; exact h rfl)
  | Except.error _, Except.ok _ => Decidable.isFalse (by intro hc; cases hc)
  | Except.ok _, Except.error _ => Decidable.isFalse (by intro hc; cases hc)
  | Except.ok a, Except.ok b =>
      if h : a = b then Decidable.isTrue (by rw [h])
      else Decidable.isFalse (by intro hc; cases hc; exact h rfl)

instance {ε α : Type} [DecidableEq ε] [DecidableEq α] : DecidableEq (Except ε α) :=
  exceptDecEq

/-! ## Helper lemmas about the filesystem model and paths -/

theorem FS.read_write_self (fs : FS) (p b : String) :
    (fs.write p b).read p = some b := by
  simp [FS.read, FS.write]

theorem FS.read_write_ne (fs : FS) (p q b : String) (h : q ≠ p) :
    (fs.write p b).read q = fs.read q := by
  have hpq : ¬ p = q := fun e => h e.symm
  simp [FS.read, FS.write, List.find?_cons, hpq]

theorem FS.write_cacheDirExists (fs : FS) (p b : String) :
    (fs.write p b).cacheDirExists = fs.cacheDirExists := rfl

/-- The first character of a string with a known literal prefix. -/
theorem string_append_head (p s : String) (c : Char) (cs : List Char)
    (hp : p.data = c :: cs) : ((p ++ s)).data.head? = some c := by
  cases p with
  | mk pd =>
      cases s with
      | mk sd =>
          have hp' : pd = c :: cs := hp
          show (pd ++ sd).head? = some c
          rw [hp']
          rfl

/-- A cache file path starts with a dot, a report pickle path with an `r`:
the report persistence of `station_report` can never shadow a cache entry. -/
theorem cachePath_ne_picklePath (url : String) (params : Params) (sid : Nat)
    (ts : DateTime) : reportPicklePath sid ts ≠ cacheFilePath url params := by
  intro h
  have h1 : (reportPicklePath sid ts).data.head? = some 'r' :=
    string_append_head ("reports/") _ 'r' _ rfl
  have h2 : (cacheFilePath url params).data.head? = some '.' :=
    string_append_head ("./cache/") _ '.' _ rfl
  rw [h, h2] at h1
  exact absurd h1 (by decide)

/-! ## Claim C9: the report extraction round-trip example -/

/-- The C9 fixture: a marker caption with a valid timestamp whose table holds
a `Wave Height` row, a `Mean Wave Direction` row, and an unmatched
`Air Pressure` row (the first cell of each row is the icon cell the code skips). -/
def c9Page : HtmlPage :=
  { anchors := [],
    captions := [
      { classes := [ "titleDataHeader" ],
        text := "1015 GMT on 10/01/2020:",
        tableRows := [
          [ "", "Wave Height", "4.2 ft" ],
          [ "", "Mean Wave Direction", "(from the NNE) some text 38 deg" ],
          [ "", "Air Pressure", "30.1 in" ] ] } ],
    stnMetadata := none }

/-- Claim C9: on a page whose report table contains the rows
(`Wave Height`, `4.2 ft`) and (`Mean Wave Direction`,
`(from the NNE) some text 38 deg`), the report extractor yields
`wave_height = ["4.2","ft"]` (value cell tokenized by whitespace, unit suffix
included) and `wave_mean_degrees = ["38","deg"]` (degree token isolated by
regex, then tokenized), and the unmatched (`Air Pressure`, `30.1 in`) row is
ignored, leaving every other field absent. -/
theorem claim_C9_round_trip :
    stationReportExtract c9Page =
      Except.ok (some
        { timestamp := ⟨2020, 10, 1, 10, 15⟩,
          wave_height := some ([ "4.2", "ft" ]),
          wave_dominant_period := none,
          wave_average_period := none,
          wave_mean_degrees := some ([ "38", "deg" ]),
          water_temperature := none }) := by
  decide

/-! ## Claim C6: the station catalog on duplicate anchors -/

/-- An index page with two anchors both targeting
`station_page.php?station=46086`, as in the claim. -/
def c6Page : HtmlPage :=
  { anchors := [
      { href := "station_page.php?station=46086", parentText := "x" },
      { href := "station_page.php?station=46086", parentText := "y" } ],
    captions := [],
    stnMetadata := none }

/-- Claim C6 counterexample: the claimed page does not yield a catalog with
`46086` exactly once — both anchors match the pattern and the scan appends
into a plain list without deduplication, so `46086` appears twice. -/
theorem claim_C6_counterexample :
    stationListScan c6Page = [ 46086, 46086 ] ∧
    (stationListScan c6Page).count 46086 ≠ 1 := by
  decide

/-- Claim C6 amended: the scan performs no deduplication — the catalog is a
plain list, not a set.  The pattern does match the claimed
`station_page.php?station=46086` href (group `46086`), and on a page whose
anchors all carry one href the catalog repeats the matched id once per
anchor, so the claimed two-anchor page yields `46086` exactly twice. -/
theorem claim_C6_amended (page : HtmlPage) (h : String)
    (hall : ∀ a ∈ page.anchors, a.href = h) :
    stationHrefMatch ("station_page.php?station=46086") = some 46086 ∧
    stationListScan page =
      (match stationHrefMatch h with
       | some sid => page.anchors.map (fun _ => sid)
       | none => []) := by
  refine ⟨by decide, ?_⟩
  unfold stationListScan
  have key : ∀ l : List Anchor, (∀ a ∈ l, a.href = h) →
      l.filterMap (fun a => stationHrefMatch a.href) =
        (match stationHrefMatch h with
         | some sid => l.map (fun _ => sid)
         | none => []) := by
    intro l
    induction l with
    | nil => intro _; cases hm : stationHrefMatch h <;> simp [hm]
    | cons a t ih =>
        intro hl
        have ha : a.href = h := hl a (List.mem_cons_self a t)
        have ht : ∀ b ∈ t, b.href = h := fun b hb => hl b (List.mem_cons_of_mem a hb)
        have iht := ih ht
        cases hm : stationHrefMatch h with
        | none =>
            rw [hm] at iht
            simp [List.filterMap_cons, ha, hm, iht]
        | some sid =>
            rw [hm] at iht
            simp [List.filterMap_cons, ha, hm, iht]
  exact key page.anchors hall

/-- Claim C6 witness: the amended theorem applied to the two-anchor page. -/
theorem claim_C6_witness :
    stationListScan c6Page =
      (match stationHrefMatch ("station_page.php?station=46086") with
       | some sid => c6Page.anchors.map (fun _ => sid)
       | none => []) :=
  (claim_C6_amended c6Page ("station_page.php?station=46086") (by decide)).2

/-! ## Claim C4: the three absence cases of the station extractor -/

/-- A page with a matching rss anchor but no `stn_metadata` div. -/
def c4Page : HtmlPage :=
  { anchors := [
      { href := "/data/latest_obs/46086.rss", parentText := "San Clemente" } ],
    captions := [],
    stnMetadata := none }

/-- Claim C4 counterexample: with the matching anchor present and the
station-metadata block absent, the extraction does not return absent — it
raises `AttributeError`, because `soup.find("div", ...)` returned `None` and
`.get_text()` is called on it unchecked. -/
theorem claim_C4_counterexample :
    stationScan c4Page 46086 = Except.error PyErr.attributeError := by
  decide

/-- Claim C4 amended: a page with no matching anchor yields absent, and a
coordinate-regex failure on a present metadata block yields absent; but when
a matching anchor is present and the metadata block is absent, the extractor
raises `AttributeError` instead of returning absent. -/
theorem claim_C4_amended (page : HtmlPage) (sid : Nat) :
    ((∀ a ∈ page.anchors, a.href ≠ rssHref sid) →
       stationScan page sid = Except.ok none) ∧
    (∀ md, page.stnMetadata = some md → latLongSearch md = none →
       stationScan page sid = Except.ok none) ∧
    (page.stnMetadata = none → (∃ a ∈ page.anchors, a.href = rssHref sid) →
       stationScan page sid = Except.error PyErr.attributeError) := by
  refine ⟨?_, ?_, ?_⟩
  · intro hne
    unfold stationScan
    have key : ∀ l : List Anchor, (∀ a ∈ l, a.href ≠ rssHref sid) →
        ∀ st, stationScanGo page sid st l = Except.ok st := by
      intro l
      induction l with
      | nil => intro _ st; rfl
      | cons a t ih =>
          intro hl st
          have ha := hl a (List.mem_cons_self a t)
          unfold stationScanGo
          rw [if_neg ha]
          exact ih (fun b hb => hl b (List.mem_cons_of_mem a hb)) st
    exact key page.anchors hne none
  · intro md hmd hll
    unfold stationScan
    have key : ∀ l : List Anchor, ∀ st, stationScanGo page sid st l = Except.ok st := by
      intro l
      induction l with
      | nil => intro st; rfl
      | cons a t ih =>
          intro st
          unfold stationScanGo
          by_cases ha : a.href = rssHref sid
          · rw [if_pos ha, hmd]
            simp only [hll]
            exact ih st
          · rw [if_neg ha]
            exact ih st
    exact key page.anchors none
  · intro hmd hex
    unfold stationScan
    have key : ∀ l : List Anchor, (∃ a ∈ l, a.href = rssHref sid) →
        ∀ st, stationScanGo page sid st l = Except.error PyErr.attributeError := by
      intro l
      induction l with
      | nil => intro hx; exact absurd hx (by simp)
      | cons a t ih =>
          intro hx st
          unfold stationScanGo
          by_cases ha : a.href = rssHref sid
          · rw [if_pos ha, hmd]
          · rw [if_neg ha]
            have hx' : ∃ b ∈ t, b.href = rssHref sid := by
              rcases hx with ⟨b, hb, hbh⟩
              rcases List.mem_cons.mp hb with rfl | hbt
              · exact absurd hbh ha
              · exact ⟨b, hbt, hbh⟩
            exact ih hx' st
    exact key page.anchors hex none

/-- A page with no matching anchor at all. -/
def c4NoAnchorPage : HtmlPage :=
  { anchors := [ { href := "/other", parentText := "x" } ],
    captions := [],
    stnMetadata := none }

/-- A page with a matching anchor and a metadata block that the coordinate
regex does not match. -/
def c4NoCoordPage : HtmlPage :=
  { anchors := [ { href := "/data/latest_obs/7.rss", parentText := "x" } ],
    captions := [],
    stnMetadata := some ("no coordinates here") }

/-- Claim C4 witness: the amended theorem applied to concrete pages for each
of its three branches. -/
theorem claim_C4_witness :
    stationScan c4NoAnchorPage 7 = Except.ok none ∧
    stationScan c4NoCoordPage 7 = Except.ok none ∧
    stationScan c4Page 46086 = Except.error PyErr.attributeError :=
  ⟨(claim_C4_amended c4NoAnchorPage 7).1 (by decide),
   (claim_C4_amended c4NoCoordPage 7).2.1 ("no coordinates here") (by decide)
     (by decide),
   (claim_C4_amended c4Page 46086).2.2 (by decide) (by decide)⟩

/-! ## Claim C3: strict timestamp rejection is a hard failure -/

/-- Claim C3: on any page whose marker caption superficially matches the
liberal timestamp regex but whose matched text fails the strict
`"%H%M %Z on %m/%d/%Y"` parse (for example trailing text
`whenever on a boat`), the report extractor raises `ValueError` — a hard
malformation failure surfaced to the caller, distinct from the absent
(`None`) outcome and from silently returning a report. -/
theorem claim_C3_strict_timestamp (page : HtmlPage) (cap : HtmlCaption)
    (g : String)
    (hcap : findMarkerCaption page = some cap)
    (hre : captionTsSearch cap.text = some g)
    (hparse : strptimeReport g = none) :
    stationReportExtract page = Except.error PyErr.valueError ∧
    stationReportExtract page ≠ Except.ok none := by
  have hmain : stationReportExtract page = Except.error PyErr.valueError := by
    simp only [stationReportExtract, hcap, hre, hparse]
  exact ⟨hmain, by rw [hmain]; exact fun hc => Except.noConfusion hc⟩

/-- The C3 fixture: a marker-classed caption whose trailing timestamp text is
`whenever on a boat`. -/
def c3Page : HtmlPage :=
  { anchors := [],
    captions := [
      { classes := [ "titleDataHeader" ],
        text := "1015 GMT whenever on a boat:",
        tableRows := [] } ],
    stnMetadata := none }

/-- Claim C3 witness: the theorem applied to the fixture page. -/
theorem claim_C3_witness :
    stationReportExtract c3Page = Except.error PyErr.valueError ∧
    stationReportExtract c3Page ≠ Except.ok none :=
  claim_C3_strict_timestamp c3Page
    { classes := [ "titleDataHeader" ],
      text := "1015 GMT whenever on a boat:",
      tableRows := [] }
    ("1015 GMT whenever on a boat") (by decide) (by decide) (by decide)

/-! ## Claim C8: report field optionality -/

/-- A row the label dispatch ignores: too few cells, or a second cell that
matches none of the five known label prefixes. -/
def rowLabelFree (row : List String) : Prop :=
  3 ≤ row.length →
    startsWith ("Wave Height") (row.getD 1 ("")) = false ∧
    startsWith ("Dominant Wave Period") (row.getD 1 ("")) = false ∧
    startsWith ("Average Period") (row.getD 1 ("")) = false ∧
    startsWith ("Mean Wave Direction") (row.getD 1 ("")) = false ∧
    startsWith ("Water Temperature") (row.getD 1 ("")) = false

instance (row : List String) : Decidable (rowLabelFree row) := by
  unfold rowLabelFree
  infer_instance

theorem reportRow_labelFree (r : StationReport) (row : List String)
    (h : rowLabelFree row) : reportRow r row = r := by
  unfold reportRow
  by_cases hl : row.length < 3
  · simp [hl]
  · obtain ⟨h1, h2, h3, h4, h5⟩ := h (Nat.le_of_not_lt hl)
    simp only [List.getD, List.get?_eq_getElem?] at h1 h2 h3 h4 h5
    simp [hl, h1, h2, h3, h4, h5]

theorem foldl_reportRow_labelFree (rows : List (List String))
    (r : StationReport) (h : ∀ row ∈ rows, rowLabelFree row) :
    rows.foldl reportRow r = r := by
  induction rows with
  | nil => rfl
  | cons row rest ih =>
      rw [List.foldl_cons,
        reportRow_labelFree r row (h row (List.mem_cons_self row rest))]
      exact ih (fun q hq => h q (List.mem_cons_of_mem row hq))

/-- Claim C8: on any page whose marker caption carries a validly parsing
timestamp but whose table has zero rows matching any of the five known field
labels, the report extractor returns a valid `StationReport` carrying that
timestamp with all five measurement fields absent — not an error and not an
absent result. -/
theorem claim_C8_field_optionality (page : HtmlPage) (cap : HtmlCaption)
    (g : String) (ts : DateTime)
    (hcap : findMarkerCaption page = some cap)
    (hre : captionTsSearch cap.text = some g)
    (hts : strptimeReport g = some ts)
    (hrows : ∀ row ∈ cap.tableRows, rowLabelFree row) :
    stationReportExtract page =
      Except.ok (some
        { timestamp := ts,
          wave_height := none,
          wave_dominant_period := none,
          wave_average_period := none,
          wave_mean_degrees := none,
          water_temperature := none }) := by
  simp only [stationReportExtract, hcap, hre, hts]
  rw [foldl_reportRow_labelFree cap.tableRows { timestamp := ts } hrows]

/-- The C8 fixture: a valid timestamp caption whose table has one unmatched
row and one too-short row. -/
def c8Page : HtmlPage :=
  { anchors := [],
    captions := [
      { classes := [ "titleDataHeader" ],
        text := "1015 GMT on 10/01/2020:",
        tableRows := [
          [ "", "Air Pressure", "30.1 in" ],
          [ "short" ] ] } ],
    stnMetadata := none }

/-- Claim C8 witness: the theorem applied to the fixture page. -/
theorem claim_C8_witness :
    stationReportExtract c8Page =
      Except.ok (some
        { timestamp := ⟨2020, 10, 1, 10, 15⟩,
          wave_height := none,
          wave_dominant_period := none,
          wave_average_period := none,
          wave_mean_degrees := none,
          water_temperature := none }) :=
  claim_C8_field_optionality c8Page
    { classes := [ "titleDataHeader" ],
      text := "1015 GMT on 10/01/2020:",
      tableRows := [ [ "", "Air Pressure", "30.1 in" ], [ "short" ] ] }
    ("1015 GMT on 10/01/2020") ⟨2020, 10, 1, 10, 15⟩
    (by decide) (by decide) (by decide) (by decide)

/-! ## Claim C2: cache signature stability -/

/-- Claim C2 counterexample: the signature is not parameter-order
independent — the same two key-value pairs supplied in the two orders hash
to different signatures, because the f-string renders the dict in insertion
order and nothing sorts the keys. -/
theorem claim_C2_counterexample :
    cacheKey ("u") ([ ("a", PyVal.pyInt 1), ("b", PyVal.pyInt 2) ]) ≠
      cacheKey ("u") ([ ("b", PyVal.pyInt 2), ("a", PyVal.pyInt 1) ]) := by
  decide

/-- Claim C2 amended: the signature is a deterministic function of the URL
together with the insertion-ordered rendering of the parameters — equal
rendered key strings give equal signatures — but it is not order
independent: supplying `\x7ba:1,b:2\x7d` and `\x7bb:2,a:1\x7d` yields different
signatures, and changing the URL or a parameter value changes the signature
at the examples of the spec. -/
theorem claim_C2_amended (u1 u2 : String) (p1 p2 : Params)
    (hs : cacheKeyString u1 p1 = cacheKeyString u2 p2) :
    cacheKey u1 p1 = cacheKey u2 p2 ∧
    cacheKey ("u") ([ ("a", PyVal.pyInt 1), ("b", PyVal.pyInt 2) ]) ≠
      cacheKey ("u") ([ ("b", PyVal.pyInt 2), ("a", PyVal.pyInt 1) ]) ∧
    cacheKey ("u") ([ ("a", PyVal.pyInt 1) ]) ≠
      cacheKey ("v") ([ ("a", PyVal.pyInt 1) ]) ∧
    cacheKey ("u") ([ ("a", PyVal.pyInt 1) ]) ≠
      cacheKey ("u") ([ ("a", PyVal.pyInt 2) ]) := by
  refine ⟨?_, by decide, by decide, by decide⟩
  unfold cacheKey
  rw [hs]

/-- Claim C2 witness: the amended theorem applied at a concrete pair of equal
key strings. -/
theorem claim_C2_witness :
    cacheKey ("u") ([ ("a", PyVal.pyInt 1), ("b", PyVal.pyInt 2) ]) =
      cacheKey ("u") ([ ("a", PyVal.pyInt 1), ("b", PyVal.pyInt 2) ]) :=
  (claim_C2_amended ("u") ("u")
    ([ ("a", PyVal.pyInt 1), ("b", PyVal.pyInt 2) ])
    ([ ("a", PyVal.pyInt 1), ("b", PyVal.pyInt 2) ]) rfl).1

/-! ## Claim C5: cache write failure aborts the fetch -/

/-- A filesystem with no files and no `./cache` directory. -/
def noCacheDirFS : FS := { files := [], cacheDirExists := false }

/-- A network that always answers 200 with a fixed body. -/
def okNet : Net := fun _ _ => NetResult.response 200 ("body")

/-- Claim C5 counterexample: when the HTTP GET succeeds but the cache write
fails (the `./cache` directory is unavailable), `_get` does not return the
fetched body — the `FileNotFoundError` of `aiofiles.open(cache_file, "w")`
propagates out of the fetch path. -/
theorem claim_C5_counterexample :
    NOAAClient_get noCacheDirFS okNet ("u") [] =
      Except.error PyErr.fileNotFound := by
  decide

/-- Claim C5 amended: a cache **read** miss is caught and the fetch proceeds,
and with a writable cache directory the 200 body is cached and returned; but
a cache **write** failure after a successful GET aborts the fetch with
`FileNotFoundError` and the body is never returned to the caller. -/
theorem claim_C5_amended (fs : FS) (net : Net) (url : String) (params : Params)
    (body : String)
    (hmiss : fs.read (cacheFilePath url params) = none)
    (hnet : net url params = NetResult.response 200 body) :
    (fs.cacheDirExists = true →
       NOAAClient_get fs net url params =
         Except.ok ⟨some body, fs.write (cacheFilePath url params) body, 1⟩) ∧
    (fs.cacheDirExists = false →
       NOAAClient_get fs net url params = Except.error PyErr.fileNotFound) := by
  constructor
  · intro hdir
    simp only [NOAAClient_get, hmiss, hnet, hdir]
    rfl
  · intro hdir
    simp only [NOAAClient_get, hmiss, hnet, hdir]
    rfl

/-- A filesystem with no files and a usable `./cache` directory. -/
def emptyFS : FS := { files := [], cacheDirExists := true }

/-- Claim C5 witness: the amended theorem applied on both branches. -/
theorem claim_C5_witness :
    NOAAClient_get emptyFS okNet ("u") [] =
      Except.ok ⟨some ("body"), emptyFS.write (cacheFilePath ("u") []) ("body"), 1⟩ ∧
    NOAAClient_get noCacheDirFS okNet ("u") [] =
      Except.error PyErr.fileNotFound :=
  ⟨(claim_C5_amended emptyFS okNet ("u") [] ("body") rfl rfl).1 rfl,
   (claim_C5_amended noCacheDirFS okNet ("u") [] ("body") rfl rfl).2 rfl⟩

/-! ## Claim C7: cache idempotence -/

/-- Claim C7: for any URL and params, with a network answering 200 with a
stable body and a writable cache directory, two consecutive `_get` calls
return the same body, and the second call performs zero network requests —
it is served entirely from the cache. -/
theorem claim_C7_cache_idempotence (fs : FS) (net : Net) (url : String)
    (params : Params) (body : String)
    (hnet : net url params = NetResult.response 200 body)
    (hdir : fs.cacheDirExists = true) :
    ∃ r fs1 n1 fs2,
      NOAAClient_get fs net url params = Except.ok ⟨some r, fs1, n1⟩ ∧
      NOAAClient_get fs1 net url params = Except.ok ⟨some r, fs2, 0⟩ := by
  cases hc : fs.read (cacheFilePath url params) with
  | some cached =>
      refine ⟨cached, fs, 0, fs, ?_, ?_⟩ <;>
        · simp only [NOAAClient_get, hc]
  | none =>
      refine ⟨body, fs.write (cacheFilePath url params) body, 1,
        fs.write (cacheFilePath url params) body, ?_, ?_⟩
      · simp only [NOAAClient_get, hc, hnet, hdir]
        rfl
      · simp only [NOAAClient_get,
          FS.read_write_self fs (cacheFilePath url params) body]

/-- Claim C7 witness: the theorem applied to an empty cache and the constant
200 network. -/
theorem claim_C7_witness :
    ∃ r fs1 n1 fs2,
      NOAAClient_get emptyFS okNet ("u") [] = Except.ok ⟨some r, fs1, n1⟩ ∧
      NOAAClient_get fs1 okNet ("u") [] = Except.ok ⟨some r, fs2, 0⟩ :=
  claim_C7_cache_idempotence emptyFS okNet ("u") [] ("body") rfl rfl

/-! ## Claim C10: the catalog on an unreachable index page -/

/-- A page with nothing on it. -/
def emptyPage : HtmlPage := { anchors := [], captions := [], stnMetadata := none }

/-- A network that always answers 404. -/
def net404 : Net := fun _ _ => NetResult.response 404 ("")

/-- Claim C10: when the index fetch yields no body (cache miss and a non-200
response), `station_list` does not return an empty catalog — the `None` body
reaches `BeautifulSoup` unchecked, which raises `TypeError`, so the call
errors instead of returning gracefully. -/
theorem claim_C10_index_unreachable (parse : Parse) (fs : FS) (net : Net)
    (status : Nat) (body : String)
    (hmiss : fs.read (cacheFilePath toStationUrl []) = none)
    (hnet : net toStationUrl [] = NetResult.response status body)
    (hstatus : status ≠ 200) :
    station_list parse fs net = Except.error PyErr.typeError ∧
    ∀ fs', station_list parse fs net ≠ Except.ok ([], fs') := by
  have hmain : station_list parse fs net = Except.error PyErr.typeError := by
    simp only [station_list, NOAAClient_get, hmiss, hnet]
    simp [hstatus]
  exact ⟨hmain, fun fs' => by rw [hmain]; exact fun hc => Except.noConfusion hc⟩

/-- Claim C10 witness: the theorem applied to an empty cache and a 404
network. -/
theorem claim_C10_witness :
    station_list (fun _ => emptyPage) emptyFS net404 =
      Except.error PyErr.typeError ∧
    ∀ fs', station_list (fun _ => emptyPage) emptyFS net404 ≠
      Except.ok ([], fs') :=
  claim_C10_index_unreachable (fun _ => emptyPage) emptyFS net404 404 ("")
    rfl rfl (by decide)

/-! ## Claim C1: partial-failure isolation of the batch -/

/-- A network on which station 2 suffers a connection failure and every other
request succeeds. -/
def connFailNet : Net := fun _ p =>
  if p = stationParams 2 then NetResult.connError
  else NetResult.response 200 ("B")

/-- A network on which station 2 receives a 404 and every other request
succeeds. -/
def status404Net : Net := fun _ p =>
  if p = stationParams 2 then NetResult.response 404 ("x")
  else NetResult.response 200 ("B")

/-- A parse oracle returning the valid-timestamp fixture page for any body. -/
def fixtureParse : Parse := fun _ => c8Page

/-- The report extracted from the fixture page: a bare timestamp. -/
def report0 : StationReport := { timestamp := ⟨2020, 10, 1, 10, 15⟩ }

/-- Claim C1 counterexample: with stations `[1, 2, 3]` where the fetch of station 2 always fails with a connection error (a transport failure),
the orchestrated batch does not return results for stations 1 and 3 with
station 2 marked absent — the exception propagates through the gather and
the whole batch aborts with no per-station results at all. -/
theorem claim_C1_counterexample :
    runGather fixtureParse emptyFS connFailNet ([ 1, 2, 3 ]) =
      Except.error PyErr.connectionError := by
  decide

/-- Claim C1 amended: transport failure isolation holds only for the
non-2xx-status form of transport failure.  Given stations whose cache
entries are absent and pairwise separate, if the fetch of station `k` always
yields a non-200 status while the fetch of every other station succeeds with an
extractable body, the batch returns one entry per station in order, with
`k` marked absent (`none`) and every other station carrying its extracted
report.  (For the connection-failure/timeout form of transport failure the
exception instead propagates and aborts the whole batch.) -/
theorem claim_C1_amended (parse : Parse) (net : Net) (fs : FS)
    (stations : List Nat) (k : Nat) (sk : Nat) (bk : String)
    (bodyOf : Nat → String) (repOf : Nat → Option StationReport)
    (hdir : fs.cacheDirExists = true)
    (hmiss : ∀ sid ∈ stations,
      fs.read (cacheFilePath stationPageUrl (stationParams sid)) = none)
    (hsep : stations.Pairwise (fun a b =>
      cacheFilePath stationPageUrl (stationParams a) ≠
        cacheFilePath stationPageUrl (stationParams b)))
    (hk : net stationPageUrl (stationParams k) = NetResult.response sk bk)
    (hsk : sk ≠ 200)
    (hother : ∀ sid ∈ stations, sid ≠ k →
      net stationPageUrl (stationParams sid) = NetResult.response 200 (bodyOf sid) ∧
      stationReportExtract (parse (bodyOf sid)) = Except.ok (repOf sid)) :
    ∃ fs', runGather parse fs net stations =
      Except.ok
        (stations.map (fun sid => (sid, if sid = k then none else repOf sid)),
          fs') := by
  induction stations generalizing fs with
  | nil => exact ⟨fs, rfl⟩
  | cons sid rest ih =>
      rw [List.pairwise_cons] at hsep
      have hmiss_sid := hmiss sid (List.mem_cons_self sid rest)
      by_cases hks : sid = k
      · subst hks
        have hget : NOAAClient_get fs net stationPageUrl (stationParams sid) =
            Except.ok ⟨none, fs, 1⟩ := by
          simp only [NOAAClient_get, hmiss_sid, hk]
          simp [hsk]
        have hrep : station_report parse fs net sid = Except.ok (none, fs) := by
          simp only [station_report, hget]
        obtain ⟨fs', hrest⟩ := ih fs hdir
          (fun s hs => hmiss s (List.mem_cons_of_mem sid hs)) hsep.2
          (fun s hs hne => hother s (List.mem_cons_of_mem sid hs) hne)
        refine ⟨fs', ?_⟩
        simp [runGather, hrep, hrest]
      · obtain ⟨hnet_s, hext_s⟩ := hother sid (List.mem_cons_self sid rest) hks
        have hget : NOAAClient_get fs net stationPageUrl (stationParams sid) =
            Except.ok ⟨some (bodyOf sid),
              fs.write (cacheFilePath stationPageUrl (stationParams sid))
                (bodyOf sid), 1⟩ := by
          simp only [NOAAClient_get, hmiss_sid, hnet_s]
          simp [hdir]
        -- the path written for this station differs from the cache path of
        -- every later station, and pickle paths differ from all cache paths
        have hsep_head : ∀ s ∈ rest,
            cacheFilePath stationPageUrl (stationParams s) ≠
              cacheFilePath stationPageUrl (stationParams sid) :=
          fun s hs => (hsep.1 s hs).symm
        cases hrepOf : repOf sid with
        | none =>
            rw [hrepOf] at hext_s
            have hrep : station_report parse fs net sid =
                Except.ok (none,
                  fs.write (cacheFilePath stationPageUrl (stationParams sid))
                    (bodyOf sid)) := by
              simp only [station_report, hget, hext_s]
            obtain ⟨fs', hrest⟩ := ih
              (fs.write (cacheFilePath stationPageUrl (stationParams sid))
                (bodyOf sid))
              hdir
              (fun s hs => by
                rw [FS.read_write_ne _ _ _ _ (hsep_head s hs)]
                exact hmiss s (List.mem_cons_of_mem sid hs))
              hsep.2
              (fun s hs hne => hother s (List.mem_cons_of_mem sid hs) hne)
            refine ⟨fs', ?_⟩
            simp only [runGather, hrep, hrest, List.map_cons, if_neg hks, hrepOf]
        | some rep =>
            rw [hrepOf] at hext_s
            have hrep : station_report parse fs net sid =
                Except.ok (some rep,
                  (fs.write (cacheFilePath stationPageUrl (stationParams sid))
                      (bodyOf sid)).write
                    (reportPicklePath sid rep.timestamp) ("pickle")) := by
              simp only [station_report, hget, hext_s]
            obtain ⟨fs', hrest⟩ := ih
              ((fs.write (cacheFilePath stationPageUrl (stationParams sid))
                  (bodyOf sid)).write
                (reportPicklePath sid rep.timestamp) ("pickle"))
              hdir
              (fun s hs => by
                rw [FS.read_write_ne _ _ _ _
                    (cachePath_ne_picklePath stationPageUrl (stationParams s)
                      sid rep.timestamp).symm,
                  FS.read_write_ne _ _ _ _ (hsep_head s hs)]
                exact hmiss s (List.mem_cons_of_mem sid hs))
              hsep.2
              (fun s hs hne => hother s (List.mem_cons_of_mem sid hs) hne)
            refine ⟨fs', ?_⟩
            simp only [runGather, hrep, hrest, List.map_cons, if_neg hks, hrepOf]

/-- Claim C1 witness: the amended theorem applied to stations `[1, 2, 3]`
with station 2 receiving a 404 and the others extracting the fixture
report. -/
theorem claim_C1_witness :
    ∃ fs', runGather fixtureParse emptyFS status404Net ([ 1, 2, 3 ]) =
      Except.ok
        (([ 1, 2, 3 ]).map
          (fun sid => (sid, if sid = 2 then none else some report0)), fs') :=
  claim_C1_amended fixtureParse status404Net emptyFS ([ 1, 2, 3 ]) 2 404 ("x")
    (fun _ => "B") (fun _ => some report0) rfl (by decide) (by decide)
    (by decide) (by decide) (by decide)

end Buoy
